import Mathlib

/-!
Shallow embedding of the staged-upload subsystem of the cp_framework
repository: the `StagingRing` circular staging allocator
(src/src/vulkan/stagingRing.cpp, src/include/cp_framework/vulkan/stagingRing.hpp)
and the `Buffer` upload orchestration (src/src/vulkan/buffer.cpp,
src/include/cp_framework/vulkan/buffer.hpp).

Vulkan / VMA handles are modelled as `Nat` with `0` standing for
`VK_NULL_HANDLE` / `nullptr`.  `VkDeviceSize` is `uint64_t`, so device-size
arithmetic is `Nat` arithmetic reduced modulo `2 ^ 64` at every operation
where the C++ computes in 64-bit unsigned integers.  External Vulkan / VMA
calls are modelled by explicit environment records (their results are
inputs of the embedded functions) and by an effect trace listing the GPU
commands the code issues.  `throw` in the C++ becomes `Except.error`; a
function that mutates `this` (or a `StagingRing&`) threads that state
explicitly and returns it unchanged on the error paths that precede any
mutation, exactly as the source does.
-/

/-- Word size of `VkDeviceSize` (`uint64_t`). -/
def M64 : Nat := 2 ^ 64

/-- 64-bit unsigned addition: what `a + b` computes on `VkDeviceSize`. -/
def add64 (a b : Nat) : Nat := (a + b) % M64

/-- 64-bit unsigned `a - 1`, wrapping at zero like `uint64_t` does. -/
def sub1_64 (a : Nat) : Nat := (a + (M64 - 1)) % M64

/-- StagingRing::Align from stagingRing.cpp:
`return (v + (align - 1)) & ~(align - 1);` on `uint64_t`, so the bitwise
complement of `align - 1` is `M64 - 1 - (align - 1)`. -/
def StagingRing.Align (v align : Nat) : Nat :=
  let am1 := sub1_64 align
  ((v + am1) % M64) &&& (M64 - 1 - am1)

/-- UploadHandle from stagingRing.hpp: fence, command buffer, device and
command pool, all `VK_NULL_HANDLE` (= 0) by default. -/
structure UploadHandle where
  fence : Nat := 0
  cmd : Nat := 0
  device : Nat := 0
  pool : Nat := 0
deriving Repr, DecidableEq

/-- UploadHandle::valid from stagingRing.hpp:
`return fence != VK_NULL_HANDLE || cmd != VK_NULL_HANDLE;`. -/
def UploadHandle.valid (h : UploadHandle) : Bool :=
  h.fence != 0 || h.cmd != 0

/-- StagingRing::Pending from stagingRing.hpp: a tracked upload together
with the end offset of the ring region it occupies. -/
structure Pending where
  handle : UploadHandle
  offsetEnd : Nat
deriving Repr, DecidableEq

/-- Member state of a StagingRing (stagingRing.hpp private members, with
their in-class default initializers).  The persistently mapped region is
modelled by `mapped` (the base pointer) plus `data` (the bytes of the
buffer); the pending queue is a FIFO list (front = oldest). -/
structure RingState where
  allocator : Nat := 0
  buffer : Nat := 0
  allocation : Nat := 0
  mapped : Nat := 0
  totalSize : Nat := 0
  usage : Nat := 0
  head : Nat := 0
  tail : Nat := 0
  data : List Nat := []
  pending : List Pending := []
  running : Bool := false
deriving Repr, DecidableEq

/-- StagingRing::Reservation from stagingRing.hpp: offset in the ring and
the CPU-visible pointer (`mapped + offset`). -/
structure Reservation where
  offset : Nat
  ptr : Nat
deriving Repr, DecidableEq

/-- StagingRing::GetTotalSize from stagingRing.hpp. -/
def StagingRing.GetTotalSize (s : RingState) : Nat := s.totalSize

/-- StagingRing::GetBuffer from stagingRing.hpp. -/
def StagingRing.GetBuffer (s : RingState) : Nat := s.buffer

/-- StagingRing::GetMappedPtr from stagingRing.hpp. -/
def StagingRing.GetMappedPtr (s : RingState) : Nat := s.mapped

/-- StagingRing::Reserve from stagingRing.cpp.  Under `commitMutex`:
fail if `size > totalSize`; align `head`; if the aligned head plus `size`
fits before the end of the buffer allocate there, otherwise wrap to the
aligned offset 0 and fail if `alignedHead + size > tail`.  A throw is an
`Except.error` and leaves the state unchanged (the C++ throws before any
member write). -/
def StagingRing.Reserve (s : RingState) (size align : Nat) :
    RingState × Except String Reservation :=
  if size > s.totalSize then
    (s, .error "StagingRing::Reserve size > totalSize")
  else
    let alignedHead := StagingRing.Align s.head align
    if add64 alignedHead size ≤ s.totalSize then
      ({ s with head := add64 alignedHead size },
       .ok ⟨alignedHead, add64 s.mapped alignedHead⟩)
    else
      let alignedHead := StagingRing.Align 0 align
      if add64 alignedHead size > s.tail then
        (s, .error "StagingRing::Reserve out of space - increase ring size or ensure GPU consumed previous uploads")
      else
        ({ s with head := add64 alignedHead size },
         .ok ⟨alignedHead, add64 s.mapped alignedHead⟩)

/-- StagingRing::AdvanceTailTo from stagingRing.cpp:
`tail = newTail % totalSize;` under `commitMutex`. -/
def StagingRing.AdvanceTailTo (s : RingState) (newTail : Nat) : RingState :=
  { s with tail := newTail % s.totalSize }

/-- StagingRing::SubmitAndTrack from stagingRing.cpp: no-op for an invalid
handle, otherwise push `Pending{handle, (offset + size) % totalSize}` onto
the FIFO queue. -/
def StagingRing.SubmitAndTrack (s : RingState) (handle : UploadHandle)
    (offset size : Nat) : RingState :=
  if !handle.valid then s
  else { s with pending := s.pending ++ [⟨handle, add64 offset size % s.totalSize⟩] }

/-- Tail advancement performed by StagingRing::janitorLoop while it drains
a pending queue front-first: each valid entry, once its fence has
signalled, sets `tail` to that entry's stored `offsetEnd`; invalid entries
are skipped (`continue`). -/
def janitorAdvance (tail : Nat) : List Pending → Nat
  | [] => tail
  | p :: rest => janitorAdvance (if p.handle.valid then p.offsetEnd else tail) rest

/-- The ring state after the janitor thread has popped and processed every
entry currently in the pending queue, strictly in FIFO order. -/
def StagingRing.janitorDrain (s : RingState) : RingState :=
  { s with tail := janitorAdvance s.tail s.pending, pending := [] }

/-- One producer-side operation on the ring, for whole-trace statements
about `Reserve` interleaved with `AdvanceTailTo`. -/
inductive RingOp where
  | reserve (size align : Nat)
  | advanceTailTo (newTail : Nat)
deriving Repr, DecidableEq

/-- Run a sequence of ring operations, collecting the `(offset, size)`
byte range returned by each successful `Reserve`; `none` if any `Reserve`
throws. -/
def runRing (s : RingState) : List RingOp → Option (RingState × List (Nat × Nat))
  | [] => some (s, [])
  | .reserve size align :: rest =>
    match StagingRing.Reserve s size align with
    | (s', .ok r) =>
      (runRing s' rest).map fun p => (p.1, (r.offset, size) :: p.2)
    | (_, .error _) => none
  | .advanceTailTo n :: rest => runRing (StagingRing.AdvanceTailTo s n) rest

/-- Two byte ranges `(offset, size)` share at least one byte (neither
range wraps around the ring end). -/
def rangesOverlap (a b : Nat × Nat) : Bool :=
  max a.1 b.1 < min (a.1 + a.2) (b.1 + b.2)

/-- VK_BUFFER_USAGE_TRANSFER_SRC_BIT. -/
def transferSrcBit : Nat := 1

/-- VK_BUFFER_USAGE_TRANSFER_DST_BIT. -/
def transferDstBit : Nat := 2

/-- VMA_MEMORY_USAGE_CPU_ONLY. -/
def memUsageCpuOnly : Nat := 2

/-- VMA_MEMORY_USAGE_CPU_TO_GPU. -/
def memUsageCpuToGpu : Nat := 3

/-- Out-parameters of a successful `vmaCreateBuffer` call: the buffer
handle, the allocation handle, and `allocationInfo.pMappedData`
(0 = null when the allocation was not created mapped). -/
structure CreatedBuffer where
  buffer : Nat
  allocation : Nat
  mappedData : Nat
deriving Repr, DecidableEq

/-- Results of the external VMA calls a `StagingRing` makes, as a
function of the arguments the code passes (`none` = not VK_SUCCESS). -/
structure RingVmaEnv where
  vmaCreateBuffer : Nat → Nat → Nat → Option CreatedBuffer

/-- StagingRing::create from stagingRing.cpp: calls `vmaCreateBuffer`
with the MEMBER fields (`allocator`, `totalSize`,
`usage | VK_BUFFER_USAGE_TRANSFER_SRC_BIT`), requesting a persistently
mapped CPU_TO_GPU allocation; on failure throws "StagingRing::create
failed"; on success stores the handles, takes `mapped` from
`allocationInfo.pMappedData` and sets `head = tail = 0`. -/
def StagingRing.create (env : RingVmaEnv) (s : RingState) :
    RingState × Except String Unit :=
  match env.vmaCreateBuffer s.allocator s.totalSize (s.usage ||| transferSrcBit) with
  | none => (s, .error "StagingRing::create failed")
  | some r =>
    ({ s with buffer := r.buffer, allocation := r.allocation,
              mapped := r.mappedData, head := 0, tail := 0 }, .ok ())

/-- StagingRing::startJanitor from stagingRing.cpp: sets `running` and
spawns the janitor thread. -/
def StagingRing.startJanitor (s : RingState) : RingState :=
  { s with running := true }

/-- The StagingRing constructor from stagingRing.cpp.  Its parameters
`allocator`, `totalSize` and `usage` shadow the members of the same
names; the body only null-checks the `allocator` parameter and then runs
`create()` / `startJanitor()` on the member state, which still holds the
in-class default initializers — the parameters are never stored. -/
def StagingRing.construct (env : RingVmaEnv)
    (allocatorParam totalSizeParam usageParam : Nat) :
    Except String RingState :=
  if allocatorParam == 0 then .error "StagingRing: allocator null"
  else
    let s : RingState := {}
    match StagingRing.create env s with
    | (_, .error e) => .error e
    | (s, .ok ()) => .ok (StagingRing.startJanitor s)

/-- Error conditions a Buffer member function can signal: LOG_THROW
raises `std::runtime_error`, and the explicit precondition checks raise
`std::invalid_argument` / `std::out_of_range`. -/
inductive VkErr where
  | invalidArgument (msg : String)
  | outOfRange (msg : String)
  | runtimeError (msg : String)
deriving Repr, DecidableEq

/-- Member state of a Buffer (buffer.hpp private members with their
in-class default initializers), plus the bytes of its memory, modelled as
`data`. -/
structure BufferState where
  buffer : Nat := 0
  allocator : Nat := 0
  allocation : Nat := 0
  allocInfoMapped : Nat := 0
  allocInfoSize : Nat := 0
  usage : Nat := 0
  size : Nat := 0
  persistentlyMapped : Bool := false
  mappedPtr : Nat := 0
  data : List Nat := []
deriving Repr, DecidableEq

/-- Results of the external VMA calls a `Buffer` makes.
`vmaCreateBuffer` is a function of (allocator, size, usage flags, memory
usage, MAPPED_BIT requested); `mapMemory` is the result of
`vmaMapMemory` (`none` = not VK_SUCCESS, otherwise the mapped pointer). -/
structure VmaEnv where
  vmaCreateBuffer : Nat → Nat → Nat → Nat → Bool → Option CreatedBuffer
  mapMemory : Option Nat

/-- memcpy of `bytes` into `data` starting at `offset`. -/
def listWrite (data : List Nat) (offset : Nat) (bytes : List Nat) : List Nat :=
  data.take offset ++ bytes ++ data.drop (offset + bytes.length)

/-- Buffer::createInternal from buffer.cpp: throws if the member
allocator is null; sets `m_usage` / `m_size` from the arguments
(`this->m_allocator = m_allocator` is a self-assignment no-op); calls
`vmaCreateBuffer` with usage `createUsage | TRANSFER_DST | TRANSFER_SRC`
and the MAPPED_BIT flag iff `m_persistentlyMapped`; on failure throws;
on success stores the handles and, when persistently mapped and
`pMappedData` is non-null, sets `m_mappedPtr`. -/
def Buffer.createInternal (env : VmaEnv) (s : BufferState)
    (createSize createUsage memUsage : Nat) : BufferState × Except VkErr Unit :=
  if s.allocator == 0 then
    (s, .error (.runtimeError "VulkanBuffer: m_allocator is null"))
  else
    let s := { s with usage := createUsage, size := createSize }
    match env.vmaCreateBuffer s.allocator createSize
        (createUsage ||| transferDstBit ||| transferSrcBit) memUsage
        s.persistentlyMapped with
    | none =>
      (s, .error (.runtimeError "VulkanBuffer::createInternal failed to create m_buffer via VMA"))
    | some r =>
      let s := { s with buffer := r.buffer, allocation := r.allocation,
                        allocInfoMapped := r.mappedData, allocInfoSize := createSize }
      if s.persistentlyMapped && r.mappedData != 0 then
        ({ s with mappedPtr := r.mappedData }, .ok ())
      else
        (s, .ok ())

/-- Buffer::destroy from buffer.cpp: unmaps a non-persistent mapping,
destroys the buffer when non-null (external effects), then resets every
member — including `m_usage`, `m_size`, `m_allocator` and
`m_persistentlyMapped` — to its default. -/
def Buffer.destroy (s : BufferState) : BufferState :=
  let s :=
    if s.mappedPtr != 0 && s.allocation != 0 && !s.persistentlyMapped then
      { s with mappedPtr := 0 }
    else s
  { s with buffer := 0, allocation := 0, allocInfoMapped := 0, allocInfoSize := 0,
           usage := 0, size := 0, allocator := 0, persistentlyMapped := false,
           mappedPtr := 0 }

/-- The Buffer constructor from buffer.cpp: member-initializes
allocator / usage / size / persistentlyMapped, runs `createInternal`,
then, when persistently mapped, takes `pMappedData` or falls back to an
explicit `vmaMapMemory`, destroying the buffer and throwing when neither
mapping is available. -/
def Buffer.construct (env : VmaEnv) (allocator size usage memUsage : Nat)
    (persistentlyMapped : Bool) : Except VkErr BufferState :=
  let s : BufferState := { allocator := allocator, usage := usage, size := size,
                           persistentlyMapped := persistentlyMapped }
  match Buffer.createInternal env s size usage memUsage with
  | (_, .error e) => .error e
  | (s, .ok ()) =>
    if s.persistentlyMapped then
      if s.allocInfoMapped != 0 then .ok { s with mappedPtr := s.allocInfoMapped }
      else
        match env.mapMemory with
        | some p => .ok { s with mappedPtr := p }
        | none => .error (.runtimeError "Requested m_persistentlyMapped but m_allocation isn't mappable")
    else .ok s

/-- Buffer::Write from buffer.cpp: null-source and out-of-range checks
first (`offset + sz > m_size` in 64-bit arithmetic), then a runtime
error if there is no allocation; then memcpy into the (possibly
temporarily mapped) memory and flush exactly the written range.  `src`
is `none` for a null pointer, otherwise the source bytes. -/
def Buffer.Write (env : VmaEnv) (s : BufferState) (src : Option (List Nat))
    (sz offset : Nat) : BufferState × Except VkErr Unit :=
  match src with
  | none => (s, .error (.invalidArgument "VulkanBuffer::Write: src is null"))
  | some srcBytes =>
    if add64 offset sz > s.size then
      (s, .error (.outOfRange "VulkanBuffer::Write: write exceeds m_buffer m_size"))
    else if s.allocation == 0 then
      (s, .error (.runtimeError "VulkanBuffer::Write: m_buffer not allocated"))
    else if s.mappedPtr != 0 then
      ({ s with data := listWrite s.data offset (srcBytes.take sz) }, .ok ())
    else
      match env.mapMemory with
      | none => (s, .error (.runtimeError "VulkanBuffer::Write map failed"))
      | some _ =>
        ({ s with data := listWrite s.data offset (srcBytes.take sz) }, .ok ())

/-- Buffer::Resize from buffer.cpp: no-op when `newSize == m_size`,
otherwise `destroy()` followed by
`createInternal(newSize, m_usage, memUsage)` — where the argument
`m_usage` and the members `m_allocator` / `m_persistentlyMapped` read
inside are the values left behind by `destroy()` — and a re-map when
`m_persistentlyMapped` still holds. -/
def Buffer.Resize (env : VmaEnv) (s : BufferState) (newSize memUsage : Nat) :
    BufferState × Except VkErr Unit :=
  if newSize == s.size then (s, .ok ())
  else
    let s := Buffer.destroy s
    match Buffer.createInternal env s newSize s.usage memUsage with
    | (s, .error e) => (s, .error e)
    | (s, .ok ()) =>
      if s.persistentlyMapped then
        match env.mapMemory with
        | some p => ({ s with mappedPtr := p }, .ok ())
        | none => (s, .error (.runtimeError "VulkanBuffer::Resize: failed to map new m_allocation"))
      else (s, .ok ())

/-- Results of the external Vulkan calls an upload makes:
`vkAllocateCommandBuffers`, `vkCreateFence` (the created handle on
VK_SUCCESS, `none` otherwise) and whether `vkQueueSubmit` succeeds. -/
structure SubmitEnv where
  allocCmd : Option Nat
  createFence : Option Nat
  submitOk : Bool

/-- GPU-side commands and resource operations an upload issues, in
program order. -/
inductive GpuEffect where
  | cmdCopyBuffer (srcBuffer dstBuffer srcOffset dstOffset size : Nat)
  | queueSubmit (queue cmd fence : Nat)
  | waitFence (device fence : Nat)
  | destroyFence (device fence : Nat)
  | freeCmd (device pool cmd : Nat)
  | flushAllocation (allocator allocation offset size : Nat)
deriving Repr, DecidableEq

/-- Buffer::Upload from buffer.cpp (the one-shot staging path):
validation, a temporary persistently mapped CPU_ONLY staging `Buffer` of
exactly `uploadSize` filled via `Write`, a one-time command buffer with
a full-size copy into `this`, a fence, a submit; with `wait` it blocks
on the fence, destroys the fence, frees the command buffer and returns
`UploadHandle{}`; otherwise it returns the live handle.  The destination
buffer state is never mutated; the returned list is the effect trace. -/
def Buffer.Upload (venv : VmaEnv) (senv : SubmitEnv) (s : BufferState)
    (device cmdPool queue : Nat) (srcData : Option (List Nat))
    (uploadSize : Nat) (wait : Bool) :
    List GpuEffect × Except VkErr UploadHandle :=
  match srcData with
  | none => ([], .error (.invalidArgument "VulkanBuffer::Upload: srcData null"))
  | some bytes =>
    if uploadSize == 0 || uploadSize > s.size then
      ([], .error (.invalidArgument "VulkanBuffer::Upload: bad m_size"))
    else if s.buffer == 0 then
      ([], .error (.runtimeError "VulkanBuffer::Upload: destination m_buffer not created"))
    else
      match Buffer.construct venv s.allocator uploadSize transferSrcBit
          memUsageCpuOnly true with
      | .error e => ([], .error e)
      | .ok staging =>
        match Buffer.Write venv staging (some bytes) uploadSize 0 with
        | (_, .error e) => ([], .error e)
        | (staging, .ok ()) =>
          match senv.allocCmd with
          | none => ([], .error (.runtimeError "VulkanBuffer::Upload failed to allocate command m_buffer"))
          | some cmd =>
            let recorded := [GpuEffect.cmdCopyBuffer staging.buffer s.buffer 0 0 uploadSize]
            match senv.createFence with
            | none =>
              (recorded ++ [.freeCmd device cmdPool cmd],
               .error (.runtimeError "VulkanBuffer::Upload failed to create fence"))
            | some fence =>
              if !senv.submitOk then
                (recorded ++ [.destroyFence device fence, .freeCmd device cmdPool cmd],
                 .error (.runtimeError "VulkanBuffer::Upload failed to submit"))
              else if wait then
                (recorded ++ [.queueSubmit queue cmd fence, .waitFence device fence,
                              .destroyFence device fence, .freeCmd device cmdPool cmd],
                 .ok {})
              else
                (recorded ++ [.queueSubmit queue cmd fence],
                 .ok ⟨fence, cmd, device, cmdPool⟩)

/-- Buffer::UploadUsingRing from buffer.cpp: validation (including a
null ring buffer check), `ring.Reserve(uploadSize, align)`, memcpy of
the payload into the reserved span of the ring's mapped memory, a flush
of that range, a command buffer copying from the ring buffer at the
reserved offset into `this`, a fence, a submit; with `wait` it blocks,
releases the fence and command buffer and returns `UploadHandle{}`
without touching the ring again; otherwise it calls
`ring.SubmitAndTrack(handle, offset, size)` and returns the handle. -/
def Buffer.UploadUsingRing (venv : VmaEnv) (senv : SubmitEnv) (s : BufferState)
    (ring : RingState) (device cmdPool queue : Nat) (srcData : Option (List Nat))
    (uploadSize align : Nat) (wait : Bool) :
    RingState × List GpuEffect × Except VkErr UploadHandle :=
  match srcData with
  | none => (ring, [], .error (.invalidArgument "VulkanBuffer::UploadUsingRing: srcData null"))
  | some bytes =>
    if uploadSize == 0 || uploadSize > s.size then
      (ring, [], .error (.invalidArgument "VulkanBuffer::UploadUsingRing: bad size"))
    else if StagingRing.GetBuffer ring == 0 then
      (ring, [], .error (.runtimeError "Staging ring not created"))
    else
      match StagingRing.Reserve ring uploadSize align with
      | (ring, .error e) => (ring, [], .error (.runtimeError e))
      | (ring, .ok res) =>
        let ring := { ring with data := listWrite ring.data res.offset (bytes.take uploadSize) }
        let flushed := [GpuEffect.flushAllocation ring.allocator ring.allocation res.offset uploadSize]
        match senv.allocCmd with
        | none =>
          (ring, flushed,
           .error (.runtimeError "VulkanBuffer::UploadUsingRing failed to allocate command m_buffer"))
        | some cmd =>
          let recorded := flushed ++ [GpuEffect.cmdCopyBuffer ring.buffer s.buffer res.offset 0 uploadSize]
          match senv.createFence with
          | none =>
            (ring, recorded ++ [.freeCmd device cmdPool cmd],
             .error (.runtimeError "VulkanBuffer::UploadUsingRing failed to create fence"))
          | some fence =>
            if !senv.submitOk then
              (ring, recorded ++ [.destroyFence device fence, .freeCmd device cmdPool cmd],
               .error (.runtimeError "VulkanBuffer::UploadUsingRing failed to submit"))
            else
              let handle : UploadHandle := ⟨fence, cmd, device, cmdPool⟩
              if wait then
                (ring, recorded ++ [.queueSubmit queue cmd fence, .waitFence device fence,
                                    .destroyFence device fence, .freeCmd device cmdPool cmd],
                 .ok {})
              else
                (StagingRing.SubmitAndTrack ring handle res.offset uploadSize,
                 recorded ++ [.queueSubmit queue cmd fence],
                 .ok handle)

/-- Whether an `Except` is an error (a C++ throw). -/
def isError {ε α : Type} : Except ε α → Bool
  | .error _ => true
  | .ok _ => false

/-- A ring VMA environment in which buffer creation always succeeds. -/
def okRingEnv : RingVmaEnv := ⟨fun _ _ _ => some ⟨1, 2, 3⟩⟩

/-- A buffer VMA environment in which creation and mapping always
succeed. -/
def okVmaEnv : VmaEnv := ⟨fun _ _ _ _ _ => some ⟨4, 5, 6⟩, some 7⟩

/-- A submission environment in which command-buffer allocation, fence
creation and queue submission all succeed. -/
def okSubmitEnv : SubmitEnv := ⟨some 11, some 12, true⟩

/-- A buffer with a live allocation (as after a successful construction
with usage flags 8 and size 64). -/
def liveBuf : BufferState :=
  { buffer := 4, allocator := 1, allocation := 5, usage := 8, size := 64 }

/-- A created staging ring of capacity 256 with zeroed contents. -/
def liveRing : RingState :=
  { allocator := 1, buffer := 2, allocation := 3, totalSize := 256,
    data := List.replicate 256 0 }

/-- The member state produced by a successful run of the StagingRing
constructor under `okRingEnv` (whatever parameters were passed). -/
def c2State : RingState :=
  { buffer := 1, allocation := 2, mapped := 3, running := true }

/-- Reserve/AdvanceTailTo trace on a ring of capacity 100 exercising the
wraparound: reserve A = 50 and B = 40 bytes, advance the tail to A's end
offset 50 (A completed), reserve C = 30 bytes (which wraps to offset 0,
leaving head = 30 below tail = 50), then reserve D = 60 bytes. -/
def c1Ops : List RingOp :=
  [.reserve 50 1, .reserve 40 1, .advanceTailTo 50, .reserve 30 1, .reserve 60 1]

/-! ## Helper lemmas -/

/-- A bitwise AND with a multiple of `2 ^ k` is a multiple of `2 ^ k`. -/
theorem two_pow_dvd_and_mul (x t k : Nat) : 2 ^ k ∣ x &&& (2 ^ k * t) := by
  apply Nat.dvd_of_mod_eq_zero
  rw [← Nat.and_pow_two_sub_one_eq_mod, Nat.and_assoc,
      Nat.and_pow_two_sub_one_eq_mod, Nat.mul_mod_right, Nat.and_zero]

/-- Unfolding of StagingRing::Align. -/
theorem align_eq (v a : Nat) :
    StagingRing.Align v a = ((v + sub1_64 a) % M64) &&& (M64 - 1 - sub1_64 a) := rfl

/-- The 64-bit decrement of an in-range power of two is `2 ^ k - 1`. -/
theorem sub1_64_two_pow_of_le (k : Nat) (hk : k ≤ 64) :
    sub1_64 (2 ^ k) = 2 ^ k - 1 := by
  have h1 : (1 : Nat) ≤ 2 ^ k := Nat.one_le_two_pow
  have hle : (2 : Nat) ^ k ≤ M64 := Nat.pow_le_pow_right (by norm_num) hk
  have hM : (0 : Nat) < M64 := Nat.two_pow_pos 64
  unfold sub1_64
  have heq : 2 ^ k + (M64 - 1) = M64 + (2 ^ k - 1) := by omega
  rw [heq, Nat.add_mod_left]
  exact Nat.mod_eq_of_lt (by omega)

/-- The 64-bit decrement of an out-of-range power of two is all ones. -/
theorem sub1_64_two_pow_of_gt (k : Nat) (hk : 64 < k) :
    sub1_64 (2 ^ k) = M64 - 1 := by
  have hM : (0 : Nat) < M64 := Nat.two_pow_pos 64
  have hk64 : (2 : Nat) ^ k = M64 * 2 ^ (k - 64) := by
    show (2 : Nat) ^ k = 2 ^ 64 * 2 ^ (k - 64)
    rw [← pow_add]
    congr 1
    omega
  unfold sub1_64
  rw [Nat.add_mod, hk64, Nat.mul_mod_right, Nat.zero_add, Nat.mod_mod_of_dvd _ dvd_rfl]
  exact Nat.mod_eq_of_lt (by omega)

/-- StagingRing::Align with a power-of-two alignment returns a multiple
of that alignment. -/
theorem two_pow_dvd_align (v k : Nat) : 2 ^ k ∣ StagingRing.Align v (2 ^ k) := by
  rw [align_eq]
  by_cases hk : k ≤ 64
  · rw [sub1_64_two_pow_of_le k hk]
    have h1 : (1 : Nat) ≤ 2 ^ k := Nat.one_le_two_pow
    have hle : (2 : Nat) ^ k ≤ M64 := Nat.pow_le_pow_right (by norm_num) hk
    have hsplit : M64 = 2 ^ k * 2 ^ (64 - k) := by
      show (2 : Nat) ^ 64 = 2 ^ k * 2 ^ (64 - k)
      rw [← pow_add]
      congr 1
      omega
    have h2 : (1 : Nat) ≤ 2 ^ (64 - k) := Nat.one_le_two_pow
    obtain ⟨u, hu⟩ := Nat.exists_eq_add_of_le h2
    have hmask : M64 - 1 - (2 ^ k - 1) = 2 ^ k * (2 ^ (64 - k) - 1) := by
      rw [hu, Nat.mul_add, Nat.mul_one] at hsplit
      rw [hu]
      have hcancel : 1 + u - 1 = u := by omega
      rw [hcancel]
      omega
    rw [hmask]
    exact two_pow_dvd_and_mul _ _ _
  · rw [sub1_64_two_pow_of_gt k (by omega)]
    have hzero : M64 - 1 - (M64 - 1) = 0 := by omega
    rw [hzero, Nat.and_zero]
    exact Dvd.intro 0 rfl

/-- Any successful Reserve leaves tail, pending, totalSize, data and the
handle members untouched; only `head` changes. -/
theorem reserve_ok_preserves (s : RingState) (size align : Nat)
    (s' : RingState) (r : Reservation)
    (hok : StagingRing.Reserve s size align = (s', .ok r)) :
    s'.tail = s.tail ∧ s'.pending = s.pending ∧ s'.totalSize = s.totalSize ∧
    s'.data = s.data ∧ s'.buffer = s.buffer ∧ s'.allocator = s.allocator ∧
    s'.allocation = s.allocation ∧ s'.mapped = s.mapped := by
  unfold StagingRing.Reserve at hok
  split at hok
  · simp at hok
  · dsimp only at hok
    split at hok
    · obtain ⟨h1, h2⟩ := Prod.mk.injEq .. ▸ hok
      subst h1
      exact ⟨rfl, rfl, rfl, rfl, rfl, rfl, rfl, rfl⟩
    · split at hok
      · simp at hok
      · obtain ⟨h1, h2⟩ := Prod.mk.injEq .. ▸ hok
        subst h1
        exact ⟨rfl, rfl, rfl, rfl, rfl, rfl, rfl, rfl⟩

/-- C5: for every `StagingRing::Reserve(size, align)` call that returns,
with `align` a power of two, the returned offset is a multiple of
`align` (it is `head` aligned upward, or 0 aligned, by
`StagingRing::Align`). -/
theorem reserve_offset_aligned (s : RingState) (size align k : Nat)
    (halign : align = 2 ^ k) (s' : RingState) (r : Reservation)
    (hok : StagingRing.Reserve s size align = (s', .ok r)) :
    align ∣ r.offset := by
  subst halign
  unfold StagingRing.Reserve at hok
  split at hok
  · simp at hok
  · dsimp only at hok
    split at hok
    · obtain ⟨h1, h2⟩ := Prod.mk.injEq .. ▸ hok
      obtain ⟨h3, h4⟩ := Reservation.mk.injEq .. ▸ (Except.ok.injEq .. ▸ h2)
      rw [← h3]
      exact two_pow_dvd_align _ _
    · split at hok
      · simp at hok
      · obtain ⟨h1, h2⟩ := Prod.mk.injEq .. ▸ hok
        obtain ⟨h3, h4⟩ := Reservation.mk.injEq .. ▸ (Except.ok.injEq .. ▸ h2)
        rw [← h3]
        exact two_pow_dvd_align _ _

/-- Witness for C5: a concrete reserve of 10 bytes at alignment 16 on a
fresh ring of capacity 100 returns offset 0, a multiple of 16. -/
theorem reserve_offset_aligned_witness :
    (16 : Nat) = 2 ^ 4 ∧
    StagingRing.Reserve { totalSize := 100 } 10 16 =
      ({ totalSize := 100, head := 10 }, .ok ⟨0, 0⟩) ∧
    (16 : Nat) ∣ (Reservation.mk 0 0).offset :=
  ⟨by norm_num, rfl,
   reserve_offset_aligned { totalSize := 100 } 10 16 4 (by norm_num) _ _ rfl⟩

/-- C1 counterexample (code bug): on a ring of totalSize = 100 the trace
`c1Ops` succeeds and returns the ranges [0,50), [50,90), [0,30), [30,90).
The only tail advance is to 50, the end of the first range, so the second
range [50,90) (end 90 > 50) is still live when the final Reserve returns
[30,90): the two live ranges overlap, and at the moment of that final
call head = 30 < tail = 50 (the previous Reserve wrapped), so the
fits-before-end branch — which never compares against `tail` — hands out
bytes inside the unconsumed `[tail, head)` region. -/
theorem reserve_overlap_after_wrap :
    (runRing { totalSize := 100 } c1Ops).map (fun p => p.2) =
      some [(0, 50), (50, 40), (0, 30), (30, 60)] ∧
    (runRing { totalSize := 100 } (c1Ops.take 4)).map (fun p => (p.1.head, p.1.tail)) =
      some (30, 50) ∧
    rangesOverlap (50, 40) (30, 60) = true ∧
    rangesOverlap (50, 50) (30, 60) = true ∧
    50 < 50 + 40 := by
  refine ⟨?_, ?_, ?_, ?_, ?_⟩ <;> decide

/-- C2 (code bug): the StagingRing constructor discards its parameters —
they shadow the members and are never stored.  Whatever allocator `a`,
capacity `c` and usage `u` are passed, a successful construction yields
`GetTotalSize() = 0` (the member default), a null member allocator, and
`head = tail = 0`; the result does not depend on `c` or `u` at all. -/
theorem staging_ctor_ignores_params (env : RingVmaEnv) (a c u : Nat)
    (s : RingState) (hok : StagingRing.construct env a c u = .ok s) :
    StagingRing.GetTotalSize s = 0 ∧ s.allocator = 0 ∧ s.head = 0 ∧ s.tail = 0 ∧
    (∀ c' u' : Nat, StagingRing.construct env a c' u' = StagingRing.construct env a c u) := by
  have hs : s.totalSize = 0 ∧ s.allocator = 0 ∧ s.head = 0 ∧ s.tail = 0 := by
    unfold StagingRing.construct StagingRing.create StagingRing.startJanitor at hok
    dsimp only at hok
    split at hok
    · simp at hok
    · split at hok
      · simp at hok
      · rename_i s0 heq
        obtain h := Except.ok.injEq .. ▸ hok
        subst h
        split at heq
        · simp at heq
        · obtain ⟨h1, h2⟩ := Prod.mk.injEq .. ▸ heq
          subst h1
          exact ⟨rfl, rfl, rfl, rfl⟩
  exact ⟨hs.1, hs.2.1, hs.2.2.1, hs.2.2.2, fun c' u' => rfl⟩

/-- Witness for C2: constructing with allocator 1 and capacity 1024 in
an environment where the VMA allocation succeeds yields a ring whose
GetTotalSize is 0, not 1024. -/
theorem staging_ctor_ignores_params_witness :
    StagingRing.construct okRingEnv 1 1024 0 = .ok c2State ∧
    StagingRing.GetTotalSize c2State = 0 ∧ (0 : Nat) ≠ 1024 :=
  ⟨rfl, (staging_ctor_ignores_params okRingEnv 1 1024 0 c2State rfl).1, by norm_num⟩

/-- Buffer::destroy always nulls the member allocator. -/
theorem destroy_allocator (s : BufferState) : (Buffer.destroy s).allocator = 0 := rfl

/-- Buffer::createInternal on a state with a null member allocator throws
immediately, leaving the state unchanged. -/
theorem createInternal_null_allocator (env : VmaEnv) (s : BufferState)
    (a b c : Nat) (h0 : s.allocator = 0) :
    Buffer.createInternal env s a b c =
      (s, .error (.runtimeError "VulkanBuffer: m_allocator is null")) := by
  unfold Buffer.createInternal
  rw [h0]
  rfl

/-- C3 (code bug): for any buffer state, `Resize(newSize, memUsage)` with
`newSize` different from the current size always throws
"VulkanBuffer: m_allocator is null": `destroy()` resets `m_allocator`,
`m_usage` and `m_persistentlyMapped` before `createInternal` reads them,
so the buffer is never recreated and the old usage flags are lost. -/
theorem resize_always_throws (env : VmaEnv) (s : BufferState)
    (newSize memUsage : Nat) (h : newSize ≠ s.size) :
    Buffer.Resize env s newSize memUsage =
      (Buffer.destroy s, .error (.runtimeError "VulkanBuffer: m_allocator is null")) := by
  have hb : (newSize == s.size) = false := beq_eq_false_iff_ne.mpr h
  unfold Buffer.Resize
  rw [hb]
  simp only [Bool.false_eq_true, if_false]
  rw [createInternal_null_allocator env (Buffer.destroy s) newSize
      (Buffer.destroy s).usage memUsage (destroy_allocator s)]

/-- Witness for C3: resizing a live 64-byte buffer to 128 bytes throws
even though the allocator environment would let every creation succeed. -/
theorem resize_always_throws_witness :
    Buffer.Resize okVmaEnv liveBuf 128 memUsageCpuToGpu =
      (Buffer.destroy liveBuf, .error (.runtimeError "VulkanBuffer: m_allocator is null")) :=
  resize_always_throws okVmaEnv liveBuf 128 memUsageCpuToGpu (by decide)

/-- C6: Reserve never waits — every call either returns a reservation or
throws, and it throws exactly when the requested size exceeds the total
capacity, or when the allocation does not fit before the end of the
buffer and wrapping to the aligned offset 0 would overlap the
still-unconsumed region guarded by `tail`; in the failure cases the ring
state (in particular head and tail) is left unchanged. -/
theorem reserve_error_iff (s : RingState) (size align : Nat) :
    (isError (StagingRing.Reserve s size align).2 = true ↔
      size > s.totalSize ∨
      (add64 (StagingRing.Align s.head align) size > s.totalSize ∧
       add64 (StagingRing.Align 0 align) size > s.tail)) ∧
    (isError (StagingRing.Reserve s size align).2 = true →
      (StagingRing.Reserve s size align).1 = s) := by
  by_cases h1 : size > s.totalSize
  · constructor
    · simp [StagingRing.Reserve, h1, isError]
    · intro _
      simp [StagingRing.Reserve, h1]
  · by_cases h2 : add64 (StagingRing.Align s.head align) size ≤ s.totalSize
    · constructor
      · simp [StagingRing.Reserve, h1, h2, isError]
      · intro hc
        exfalso
        revert hc
        simp [StagingRing.Reserve, h1, h2, isError]
    · by_cases h3 : add64 (StagingRing.Align 0 align) size > s.tail
      · constructor
        · simp [StagingRing.Reserve, h1, h2, h3, isError]
          omega
        · intro _
          simp [StagingRing.Reserve, h1, h2, h3]
      · constructor
        · simp [StagingRing.Reserve, h1, h2, h3, isError]
        · intro hc
          exfalso
          revert hc
          simp [StagingRing.Reserve, h1, h2, h3, isError]

/-- Witness for C6: requesting 200 bytes on a ring of capacity 100
throws and leaves the state unchanged. -/
theorem reserve_error_iff_witness :
    isError (StagingRing.Reserve { totalSize := 100 } 200 16).2 = true ∧
    (StagingRing.Reserve { totalSize := 100 } 200 16).1 = { totalSize := 100 } :=
  ⟨(reserve_error_iff { totalSize := 100 } 200 16).1.mpr (Or.inl (by decide)),
   (reserve_error_iff { totalSize := 100 } 200 16).2 (by decide)⟩

/-- C4: uploads A then B tracked via SubmitAndTrack in that order enter
the pending queue in submission order (FIFO, popped front-first by the
janitor); once the janitor has processed both, `tail` equals B's end
offset `(offB + szB) mod totalSize`, and whenever A's and B's end
offsets differ the final tail is not A's end offset. -/
theorem submit_track_fifo_tail (s s2 : RingState) (A B : UploadHandle)
    (offA szA offB szB : Nat) (hpend : s.pending = [])
    (hA : A.valid = true) (hB : B.valid = true) (_htot : 0 < s.totalSize)
    (hs2 : StagingRing.SubmitAndTrack
      (StagingRing.SubmitAndTrack s A offA szA) B offB szB = s2) :
    s2.pending = [⟨A, add64 offA szA % s.totalSize⟩,
                  ⟨B, add64 offB szB % s.totalSize⟩] ∧
    (StagingRing.janitorDrain s2).tail = add64 offB szB % s.totalSize ∧
    (add64 offA szA % s.totalSize ≠ add64 offB szB % s.totalSize →
      (StagingRing.janitorDrain s2).tail ≠ add64 offA szA % s.totalSize) := by
  subst hs2
  unfold StagingRing.SubmitAndTrack
  rw [hA, hB]
  simp only [Bool.not_true, Bool.false_eq_true, if_false]
  rw [hpend]
  refine ⟨rfl, ?_, ?_⟩
  · unfold StagingRing.janitorDrain
    simp [janitorAdvance, hA, hB]
  · intro hne
    unfold StagingRing.janitorDrain
    simp [janitorAdvance, hA, hB]
    exact fun hcontra => hne hcontra.symm

/-- Witness for C4: tracking A = [0,50) then B = [50,90) on a capacity
100 ring and draining the janitor leaves tail at 90, B's end offset. -/
theorem submit_track_fifo_tail_witness :
    (StagingRing.janitorDrain (StagingRing.SubmitAndTrack
      (StagingRing.SubmitAndTrack { totalSize := 100 } ⟨1, 2, 3, 4⟩ 0 50)
      ⟨5, 6, 3, 4⟩ 50 40)).tail = 90 := by
  have h := submit_track_fifo_tail { totalSize := 100 } _ ⟨1, 2, 3, 4⟩ ⟨5, 6, 3, 4⟩
    0 50 50 40 rfl rfl rfl (by norm_num) rfl
  exact h.2.1.trans (by decide)

/-- C8: a null source pointer makes Write, Upload and UploadUsingRing
throw invalid-argument; a Write whose `offset + size` exceeds the buffer
capacity throws out-of-range; an Upload or UploadUsingRing whose size
exceeds the buffer size throws invalid-argument — in every case before
any staging allocation or GPU submission (empty effect trace) and
without mutating the buffer or ring state. -/
theorem precondition_errors
    (venv : VmaEnv) (senv : SubmitEnv) (s : BufferState) (ring : RingState)
    (device cmdPool queue : Nat) (bytes : List Nat)
    (sz1 sz2 sz3 offset align : Nat) (wait : Bool)
    (hoor : add64 offset sz3 > s.size) (hsz : sz2 > s.size) :
    Buffer.Write venv s none sz1 offset =
      (s, .error (.invalidArgument "VulkanBuffer::Write: src is null")) ∧
    Buffer.Upload venv senv s device cmdPool queue none sz1 wait =
      ([], .error (.invalidArgument "VulkanBuffer::Upload: srcData null")) ∧
    Buffer.UploadUsingRing venv senv s ring device cmdPool queue none sz1 align wait =
      (ring, [], .error (.invalidArgument "VulkanBuffer::UploadUsingRing: srcData null")) ∧
    Buffer.Write venv s (some bytes) sz3 offset =
      (s, .error (.outOfRange "VulkanBuffer::Write: write exceeds m_buffer m_size")) ∧
    Buffer.Upload venv senv s device cmdPool queue (some bytes) sz2 wait =
      ([], .error (.invalidArgument "VulkanBuffer::Upload: bad m_size")) ∧
    Buffer.UploadUsingRing venv senv s ring device cmdPool queue (some bytes) sz2 align wait =
      (ring, [], .error (.invalidArgument "VulkanBuffer::UploadUsingRing: bad size")) := by
  refine ⟨rfl, rfl, rfl, ?_, ?_, ?_⟩
  · simp [Buffer.Write, hoor]
  · simp [Buffer.Upload, hsz]
  · simp [Buffer.UploadUsingRing, hsz]

/-- Witness for C8: on a live 64-byte buffer, a 100-byte write at offset
3 is rejected out-of-range with the state unchanged. -/
theorem precondition_errors_witness :
    Buffer.Write okVmaEnv liveBuf (some [1]) 100 3 =
      (liveBuf, .error (.outOfRange "VulkanBuffer::Write: write exceeds m_buffer m_size")) :=
  (precondition_errors okVmaEnv okSubmitEnv liveBuf liveRing 1 2 3 [1] 5 99 100 3
    16 true (by decide) (by decide)).2.2.2.1

/-- C10: a zero-byte Upload or UploadUsingRing is rejected with
invalid-argument before any staging allocation or GPU work, for every
buffer state — even though zero bytes never exceed the capacity. -/
theorem zero_size_upload_rejected
    (venv : VmaEnv) (senv : SubmitEnv) (s : BufferState) (ring : RingState)
    (device cmdPool queue : Nat) (bytes : List Nat) (align : Nat) (wait : Bool) :
    Buffer.Upload venv senv s device cmdPool queue (some bytes) 0 wait =
      ([], .error (.invalidArgument "VulkanBuffer::Upload: bad m_size")) ∧
    Buffer.UploadUsingRing venv senv s ring device cmdPool queue (some bytes) 0 align wait =
      (ring, [], .error (.invalidArgument "VulkanBuffer::UploadUsingRing: bad size")) :=
  ⟨rfl, rfl⟩

/-- C7: a successful Upload with wait = true returns the empty handle
(`valid()` false, fence and command buffer destroyed/freed before
return), and a successful Upload with wait = false returns the live
handle built from the created fence and command buffer, which is valid. -/
theorem upload_sync_releases_async_valid
    (venv : VmaEnv) (senv : SubmitEnv) (s : BufferState)
    (device cmdPool queue : Nat) (bytes : List Nat) (uploadSize : Nat)
    (wait : Bool) (f c : Nat) (effs : List GpuEffect) (h : UploadHandle)
    (hfc : senv.createFence = some f) (hcc : senv.allocCmd = some c) (hfnz : f ≠ 0)
    (hok : Buffer.Upload venv senv s device cmdPool queue (some bytes) uploadSize wait =
      (effs, .ok h)) :
    (wait = true → h = {} ∧ h.valid = false ∧
      GpuEffect.destroyFence device f ∈ effs ∧
      GpuEffect.freeCmd device cmdPool c ∈ effs) ∧
    (wait = false → h = ⟨f, c, device, cmdPool⟩ ∧ h.valid = true) := by
  unfold Buffer.Upload at hok
  rw [hcc, hfc] at hok
  dsimp only at hok
  split at hok
  · simp at hok
  · split at hok
    · simp at hok
    · split at hok
      · simp at hok
      · split at hok
        · simp at hok
        · split at hok
          · simp at hok
          · split at hok
            · rename_i hw
              obtain ⟨he, hh⟩ := Prod.mk.injEq .. ▸ hok
              obtain hh := Except.ok.injEq .. ▸ hh
              subst he
              subst hh
              constructor
              · intro _
                refine ⟨rfl, rfl, ?_, ?_⟩ <;> simp
              · intro hw'
                rw [hw] at hw'
                simp at hw'
            · rename_i hw
              obtain ⟨he, hh⟩ := Prod.mk.injEq .. ▸ hok
              obtain hh := Except.ok.injEq .. ▸ hh
              subst he
              subst hh
              constructor
              · intro hw'
                rw [hw'] at hw
                simp at hw
              · intro _
                refine ⟨rfl, ?_⟩
                simp [UploadHandle.valid, hfnz]

/-- Witness for C7: an asynchronous upload of 4 bytes into a live
64-byte buffer with every external call succeeding returns the live,
valid handle (fence 12, command buffer 11). -/
theorem upload_sync_releases_async_valid_witness :
    Buffer.Upload okVmaEnv okSubmitEnv liveBuf 1 2 3 (some [9, 9, 9, 9]) 4 false =
      ([.cmdCopyBuffer 4 4 0 0 4, .queueSubmit 3 11 12], .ok ⟨12, 11, 1, 2⟩) ∧
    UploadHandle.valid ⟨12, 11, 1, 2⟩ = true :=
  ⟨rfl,
   ((upload_sync_releases_async_valid okVmaEnv okSubmitEnv liveBuf 1 2 3 [9, 9, 9, 9]
      4 false 12 11 [.cmdCopyBuffer 4 4 0 0 4, .queueSubmit 3 11 12] ⟨12, 11, 1, 2⟩
      rfl rfl (by norm_num) rfl).2 rfl).2⟩

/-- C9: a successful UploadUsingRing with wait = true leaves the ring's
tail and pending queue (and capacity, handles, mapped base) untouched —
the only ring state the call changes is `head` (advanced by the Reserve)
and the bytes written into the reserved span — and returns the empty
handle; with wait = false the live handle is handed to
`ring.SubmitAndTrack(handle, offset, size)` (appending exactly one
pending entry ending at `(offset + size) mod totalSize`) and the same
handle is returned to the caller. -/
theorem uploadUsingRing_ring_state
    (venv : VmaEnv) (senv : SubmitEnv) (s : BufferState) (ring ringR ringOut : RingState)
    (device cmdPool queue : Nat) (bytes : List Nat) (uploadSize align : Nat)
    (wait : Bool) (f c : Nat) (res : Reservation)
    (effs : List GpuEffect) (result : Except VkErr UploadHandle)
    (hnz : uploadSize ≠ 0) (hle : uploadSize ≤ s.size) (hrb : ring.buffer ≠ 0)
    (hfc : senv.createFence = some f) (hcc : senv.allocCmd = some c)
    (hsub : senv.submitOk = true) (hfnz : f ≠ 0)
    (hres : StagingRing.Reserve ring uploadSize align = (ringR, .ok res))
    (hout : Buffer.UploadUsingRing venv senv s ring device cmdPool queue (some bytes)
      uploadSize align wait = (ringOut, effs, result)) :
    (wait = true →
      ringOut.tail = ring.tail ∧ ringOut.pending = ring.pending ∧
      ringOut.totalSize = ring.totalSize ∧ ringOut.head = ringR.head ∧
      ringOut.buffer = ring.buffer ∧ ringOut.allocator = ring.allocator ∧
      ringOut.allocation = ring.allocation ∧ ringOut.mapped = ring.mapped ∧
      ringOut.data = listWrite ring.data res.offset (bytes.take uploadSize) ∧
      result = .ok {}) ∧
    (wait = false →
      ringOut.pending = ring.pending ++
        [⟨⟨f, c, device, cmdPool⟩, add64 res.offset uploadSize % ring.totalSize⟩] ∧
      result = .ok ⟨f, c, device, cmdPool⟩) := by
  obtain ⟨ht, hp, hts, hd, hbf, hal, han, hm⟩ := reserve_ok_preserves ring uploadSize align ringR res hres
  have hc1 : (uploadSize == 0 || decide (uploadSize > s.size)) = false := by
    simp [hnz]
    omega
  have hc2 : (StagingRing.GetBuffer ring == 0) = false := by
    simp [StagingRing.GetBuffer, hrb]
  unfold Buffer.UploadUsingRing at hout
  rw [hc1, hc2, hres, hcc, hfc, hsub] at hout
  simp only [Bool.not_true, Bool.false_eq_true, if_false] at hout
  split at hout
  · rename_i hw
    obtain ⟨h1, h2⟩ := Prod.mk.injEq .. ▸ hout
    obtain ⟨h3, h4⟩ := Prod.mk.injEq .. ▸ h2
    subst h1
    constructor
    · intro _
      refine ⟨ht, hp, hts, rfl, hbf, hal, han, hm, ?_, h4.symm⟩
      rw [hd]
    · intro hw'
      rw [hw] at hw'
      simp at hw'
  · rename_i hw
    obtain ⟨h1, h2⟩ := Prod.mk.injEq .. ▸ hout
    obtain ⟨h3, h4⟩ := Prod.mk.injEq .. ▸ h2
    subst h1
    constructor
    · intro hw'
      rw [hw'] at hw
      simp at hw
    · intro _
      have hv : (!UploadHandle.valid ⟨f, c, device, cmdPool⟩) = false := by
        simp [UploadHandle.valid, hfnz]
      constructor
      · unfold StagingRing.SubmitAndTrack
        rw [hv]
        simp only [Bool.false_eq_true, if_false]
        rw [hp, hts]
      · exact h4.symm

/-- Witness for C9: a synchronous (wait = true) 4-byte ring upload into
a live buffer leaves the ring's tail and pending queue exactly as they
were. -/
theorem uploadUsingRing_ring_state_witness :
    (Buffer.UploadUsingRing okVmaEnv okSubmitEnv liveBuf liveRing 1 2 3
      (some [7, 7, 7, 7]) 4 16 true).1.tail = liveRing.tail ∧
    (Buffer.UploadUsingRing okVmaEnv okSubmitEnv liveBuf liveRing 1 2 3
      (some [7, 7, 7, 7]) 4 16 true).1.pending = liveRing.pending := by
  have h := uploadUsingRing_ring_state okVmaEnv okSubmitEnv liveBuf liveRing
    (StagingRing.Reserve liveRing 4 16).1
    (Buffer.UploadUsingRing okVmaEnv okSubmitEnv liveBuf liveRing 1 2 3
      (some [7, 7, 7, 7]) 4 16 true).1
    1 2 3 [7, 7, 7, 7] 4 16 true 12 11 ⟨0, 0⟩
    (Buffer.UploadUsingRing okVmaEnv okSubmitEnv liveBuf liveRing 1 2 3
      (some [7, 7, 7, 7]) 4 16 true).2.1
    (Buffer.UploadUsingRing okVmaEnv okSubmitEnv liveBuf liveRing 1 2 3
      (some [7, 7, 7, 7]) 4 16 true).2.2
    (by norm_num) (by decide) (by decide) rfl rfl rfl (by norm_num) rfl rfl
  exact ⟨(h.1 rfl).1, (h.1 rfl).2.1⟩
